import Mathlib

/-!
Verification of the LCD display driver in `old/lib/LCD_0inch96_opi.py`
(class `LCD_0inch96`) together with its configuration layers
`old/lib/lcdconfig_opi.py` (class `OrangePiGPIO`) and
`old/lib/lcdconfig.py` (class `GPIOPin`).

The driver is shallowly embedded: every driver operation is modelled as a
pure function producing the list of GPIO/SPI events it emits, in order.
`clear` computes its bytes with plain Python integers (unbounded,
non-negative here), but the per-pixel arithmetic of `show_image` runs on
numpy `uint8` scalars (`np.array` of an RGB PIL image), so every
arithmetic step there wraps at 8 bits; the model makes each wrap explicit
as `% 256`.  Bytes travelling to the SPI transport are `Int` because
`set_window` can emit `x_end - 1` for arbitrary Python integers.
-/

set_option maxRecDepth 8192

namespace LCDDriver

/-! ### Pixel conversion (`show_image`, lines 238-242)

Source:
  `color565 = ((r & 0xF8) << 8) | ((g & 0xFC) << 3) | (b >> 3)`
  `color_data.append((color565 >> 8) & 0xFF)`  (high byte)
  `color_data.append(color565 & 0xFF)`         (low byte)

`r`, `g`, `b` are numpy `uint8` scalars unpacked from
`img_array[y, x]`, so every operation above is evaluated at dtype
`uint8` and wraps modulo 256 (`(r & 0xF8) << 8` is always 0, and
`color565` itself is an 8-bit value).
-/

/-- One numpy `uint8` wrap: results of `uint8` arithmetic keep only the
low 8 bits. -/
def u8 (n : Nat) : Nat := n % 256

/-- The `color565` value exactly as computed by `show_image` on numpy
`uint8` scalars: each shift result wraps at 8 bits. -/
def rgb565 (r g b : Nat) : Nat :=
  u8 (u8 ((r &&& 0xF8) <<< 8) ||| u8 ((g &&& 0xFC) <<< 3) ||| u8 (b >>> 3))

/-- The byte sent first, `(color565 >> 8) & 0xFF`, evaluated at dtype
`uint8`. -/
def hiByte (r g b : Nat) : Nat := u8 ((rgb565 r g b >>> 8) &&& 0xFF)

/-- The byte sent second, `color565 & 0xFF`, evaluated at dtype
`uint8`. -/
def loByte (r g b : Nat) : Nat := u8 (rgb565 r g b &&& 0xFF)

/-- The low-byte formula that section 8 of the spec calls the standard
corrected packing: `((g & 0x07) << 5) | (b >> 3)`.  Modelled from the
spec's words for comparison against the code's packing. -/
def specCorrectedLowByte (g b : Nat) : Nat := ((g &&& 0x07) <<< 5) ||| (b >>> 3)

/-! ### GPIO/SPI event traces

Control pins from `lcdconfig_opi.py` (BOARD numbering):
`RST_PIN = 22`, `DC_PIN = 18`, `CS_PIN = 24`, `BL_PIN = 12`.

Driver operations are modelled as the list of events they emit, assuming
the configuration layer is already initialized (`init_lcd` calls
`config.OPiGPIO.setup()` first; the lazy-setup path of the configuration
layer is modelled separately below for `cleanup`).
-/

def rstPin : Nat := 22
def dcPin : Nat := 18
def csPin : Nat := 24
def blPin : Nat := 12

/-- One observable hardware event emitted by the driver. -/
inductive Ev where
  /-- `config.digital_write(pin, value)` -/
  | gpio (pin : Nat) (value : Nat)
  /-- one `config.spi_writebyte`/`spi_writebytes` transfer -/
  | spi (bytes : List Int)
  /-- `config.delay_ms(ms)` -/
  | delay (ms : Nat)
  /-- `config.OPiGPIO.setup()` (GPIO mode/pin setup plus SPI open) -/
  | setup
deriving DecidableEq, BEq, Repr

/-- `write_command` (lines 37-42): D/C low, CS low, one byte, CS high. -/
def writeCommand (cmd : Int) : List Ev :=
  [.gpio dcPin 0, .gpio csPin 0, .spi [cmd], .gpio csPin 1]

/-- `write_data` (lines 44-49): D/C high, CS low, one byte, CS high. -/
def writeData (d : Int) : List Ev :=
  [.gpio dcPin 1, .gpio csPin 0, .spi [d], .gpio csPin 1]

/-- `write_data_bytes` (lines 51-56): D/C high, CS low, chunk, CS high. -/
def writeDataBytes (ds : List Int) : List Ev :=
  [.gpio dcPin 1, .gpio csPin 0, .spi ds, .gpio csPin 1]

/-- `set_window(x_start, y_start, x_end, y_end)` (lines 177-194). -/
def setWindow (xStart yStart xEnd yEnd : Int) : List Ev :=
  writeCommand 0x2A ++
    writeData 0x00 ++ writeData xStart ++ writeData 0x00 ++ writeData (xEnd - 1) ++
  writeCommand 0x2B ++
    writeData 0x00 ++ writeData yStart ++ writeData 0x00 ++ writeData (yEnd - 1) ++
  writeCommand 0x2C

/-- Splitting a byte list into transfer chunks: the loop
`for i in range(0, len(color_data), chunk_size)` with slices
`color_data[i:i+chunk_size]`. -/
def chunksOf (n : Nat) (l : List α) : List (List α) :=
  if h : l.length = 0 ∨ n = 0 then [] else l.take n :: chunksOf n (l.drop n)
termination_by l.length
decreasing_by
  push_neg at h
  simp only [List.length_drop]
  omega

/-- An in-memory image: pixel `(r, g, b)` at row `y`, column `x`.
Only native-size (160 by 80) RGB images are modelled; on such input the
resize and mode-conversion branches of `show_image` are identity. -/
def Img : Type := Nat → Nat → Nat × Nat × Nat

/-- The two bytes `show_image` appends for one pixel (lines 238-242),
both computed at dtype `uint8`. -/
def pixelBytes (p : Nat × Nat × Nat) : List Int :=
  [((u8 ((rgb565 p.1 p.2.1 p.2.2 >>> 8) &&& 0xFF) : Nat) : Int),
   ((u8 (rgb565 p.1 p.2.1 p.2.2 &&& 0xFF) : Nat) : Int)]

/-- `color_data` built by the nested `for y ... for x ...` loops of
`show_image` (lines 235-242), row-major. -/
def colorData (img : Img) : List Int :=
  (List.range 80).flatMap fun y => (List.range 160).flatMap fun x => pixelBytes (img y x)

/-- `show_image(image)` for a native-size RGB image (lines 212-248):
one `set_window(0, 0, 160, 80)` then the pixel bytes in 1024-byte chunks. -/
def showImage (img : Img) : List Ev :=
  setWindow 0 0 160 80 ++ (chunksOf 1024 (colorData img)).flatMap writeDataBytes

/-- `color_data = [color_high, color_low] * (self.width * self.height)`
from `clear` (lines 202-204). -/
def clearData (color : Nat) : List Int :=
  (List.replicate (160 * 80)
    ([(((color >>> 8) &&& 0xFF : Nat) : Int), ((color &&& 0xFF : Nat) : Int)])).flatten

/-- `clear(color)` (lines 196-210). -/
def clear (color : Nat) : List Ev :=
  setWindow 0 0 160 80 ++ (chunksOf 1024 (clearData color)).flatMap writeDataBytes

/-- `reset()` (lines 27-35). -/
def resetTrace : List Ev :=
  [.gpio rstPin 1, .delay 100, .gpio rstPin 0, .delay 100, .gpio rstPin 1, .delay 100]

/-- Configuration-register part of `init_lcd()` (lines 58-167),
transcribed command for command: GPIO setup, hardware reset, then the
register script up to and including the second gamma table. -/
def initRegisterCmds : List Ev :=
  [.setup] ++ resetTrace ++
  writeCommand 0x11 ++ [.delay 120] ++
  writeCommand 0xB1 ++ writeData 0x01 ++ writeData 0x2C ++ writeData 0x2D ++
  writeCommand 0xB2 ++ writeData 0x01 ++ writeData 0x2C ++ writeData 0x2D ++
  writeCommand 0xB3 ++ writeData 0x01 ++ writeData 0x2C ++ writeData 0x2D ++
    writeData 0x01 ++ writeData 0x2C ++ writeData 0x2D ++
  writeCommand 0xB4 ++ writeData 0x07 ++
  writeCommand 0xC0 ++ writeData 0xA2 ++ writeData 0x02 ++ writeData 0x84 ++
  writeCommand 0xC1 ++ writeData 0xC5 ++
  writeCommand 0xC2 ++ writeData 0x0A ++ writeData 0x00 ++
  writeCommand 0xC3 ++ writeData 0x8A ++ writeData 0x2A ++
  writeCommand 0xC4 ++ writeData 0x8A ++ writeData 0xEE ++
  writeCommand 0xC5 ++ writeData 0x0E ++
  writeCommand 0x36 ++ writeData 0xC8 ++
  writeCommand 0x3A ++ writeData 0x05 ++
  writeCommand 0xE0 ++ writeData 0x0F ++ writeData 0x1A ++ writeData 0x0F ++ writeData 0x18 ++
    writeData 0x2F ++ writeData 0x28 ++ writeData 0x20 ++ writeData 0x22 ++
    writeData 0x1F ++ writeData 0x1B ++ writeData 0x23 ++ writeData 0x37 ++
    writeData 0x00 ++ writeData 0x07 ++ writeData 0x02 ++ writeData 0x10 ++
  writeCommand 0xE1 ++ writeData 0x0F ++ writeData 0x1B ++ writeData 0x0F ++ writeData 0x17 ++
    writeData 0x33 ++ writeData 0x2C ++ writeData 0x29 ++ writeData 0x2E ++
    writeData 0x30 ++ writeData 0x30 ++ writeData 0x39 ++ writeData 0x3F ++
    writeData 0x00 ++ writeData 0x07 ++ writeData 0x03 ++ writeData 0x10

/-- `init_lcd()` (lines 58-175): the register script, display-on
(`0x29`), a 100 ms settle delay, then `self.clear()` with the default
color `0x0000`. -/
def initTrace : List Ev :=
  initRegisterCmds ++ writeCommand 0x29 ++ [.delay 100] ++ clear 0

/-- `show_image` including its `if image is None` guard (lines 214-216):
on `None` it prints an error and returns normally, emitting nothing;
no code path raises. -/
def showImageChecked (oimg : Option Img) : Except String (List Ev) :=
  match oimg with
  | none => .ok []
  | some img => .ok (showImage img)

/-! ### Observations on a trace -/

/-- Tag every transported byte with the D/C level it was written under
(`true` = data, `false` = command), scanning the trace in order. -/
def tagGo (dc : Nat) : List Ev → List (Bool × Int)
  | [] => []
  | .gpio p v :: r => tagGo (if p = dcPin then v else dc) r
  | .spi bs :: r => bs.map (fun b => (dc == 1, b)) ++ tagGo dc r
  | .delay _ :: r => tagGo dc r
  | .setup :: r => tagGo dc r

/-- Transported bytes tagged command/data.  The configuration layer
drives D/C low initially (`GPIO.setup(DC_PIN, ..., initial=GPIO.LOW)`). -/
def taggedBytes (t : List Ev) : List (Bool × Int) := tagGo 0 t

/-- Bytes transported with D/C low (controller commands), in order. -/
def commandBytes (t : List Ev) : List Int :=
  (taggedBytes t).filterMap fun p => if p.1 then none else some p.2

/-- Bytes transported with D/C high (arguments and pixels), in order. -/
def dataBytes (t : List Ev) : List Int :=
  (taggedBytes t).filterMap fun p => if p.1 then some p.2 else none

/-- Chip-select and data/command framing checker: every SPI transfer is
immediately preceded by a CS-low write and immediately followed by a
CS-high write, and the D/C line has been driven before it. -/
def framedOk : Option Bool → List Ev → Bool
  | _, [] => true
  | _, .spi _ :: _ => false
  | dc, .gpio p v :: .spi _ :: r2 =>
      (p == csPin && v == 0) && (if p = dcPin then some (v == 1) else dc).isSome &&
        (r2.head? == some (.gpio csPin 1)) && framedOk (if p = dcPin then some (v == 1) else dc) r2
  | dc, .gpio p v :: r => framedOk (if p = dcPin then some (v == 1) else dc) r
  | dc, .delay _ :: r => framedOk dc r
  | dc, .setup :: r => framedOk dc r

/-- Heads that may legally follow a framing block. -/
def notSpiHead : List Ev → Bool
  | .spi _ :: _ => false
  | _ => true

/-! ### Configuration layer (`lcdconfig_opi.py`) and `cleanup` -/

/-- Observable side effects of the `OrangePiGPIO` configuration layer. -/
inductive CEv where
  /-- `GPIO.setmode(GPIO.BOARD)` and `GPIO.setwarnings(False)` -/
  | setmode
  /-- `GPIO.setup(pin, GPIO.OUT, initial=v)` -/
  | setupPin (pin : Nat) (initial : Nat)
  /-- `spidev` device opened -/
  | spiOpened
  /-- `self.spi.close()` -/
  | spiClosed
  /-- `GPIO.output(pin, v)` -/
  | output (pin : Nat) (v : Nat)
  /-- `GPIO.cleanup()` -/
  | gpioCleaned
deriving DecidableEq, BEq, Repr

/-- Mutable state of the `OrangePiGPIO` singleton: `self.initialized`
and whether `self.spi` is a live handle (`self.spi is not None`). -/
structure CfgState where
  ready : Bool
  spiLive : Bool
deriving DecidableEq, Repr

/-- `OrangePiGPIO.setup()` (lines 41-75): no-op when already initialized,
otherwise GPIO mode/pin setup, SPI open, and mark initialized. -/
def opiSetup (s : CfgState) : CfgState × List CEv :=
  if s.ready then (s, [])
  else ({ ready := true, spiLive := true },
    [.setmode, .setupPin rstPin 1, .setupPin dcPin 0, .setupPin csPin 1, .setupPin blPin 1,
     .spiOpened])

/-- `OrangePiGPIO.digital_write(pin, value)` (lines 29-33): lazily runs
`setup()` when not initialized, then `GPIO.output`. -/
def opiDigitalWrite (s : CfgState) (pin v : Nat) : CfgState × List CEv :=
  let p := if s.ready then (s, ([] : List CEv)) else opiSetup s
  (p.1, p.2 ++ [.output pin v])

/-- `OrangePiGPIO.cleanup()` (lines 96-104): close SPI if live, then
`GPIO.cleanup()` if initialized. -/
def opiCleanup (s : CfgState) : CfgState × List CEv :=
  let p1 := if s.spiLive then ({ s with spiLive := false }, [CEv.spiClosed]) else (s, [])
  let p2 := if p1.1.ready then ({ p1.1 with ready := false }, [CEv.gpioCleaned]) else (p1.1, [])
  (p2.1, p1.2 ++ p2.2)

/-- `LCD_0inch96.backlight(on)` (lines 252-255). -/
def lcdBacklight (s : CfgState) (isOn : Bool) : CfgState × List CEv :=
  opiDigitalWrite s blPin (if isOn then 1 else 0)

/-- `LCD_0inch96.cleanup()` (lines 257-261): `backlight(False)` then
`config.cleanup()`. -/
def lcdCleanup (s : CfgState) : CfgState × List CEv :=
  let p1 := lcdBacklight s false
  let p2 := opiCleanup p1.1
  (p2.1, p1.2 ++ p2.2)

/-- Sysfs `GPIOPin.on()` from `lcdconfig.py` (lines 25-31): the write may
raise, the bare `except: pass` swallows any failure, and the method
returns normally either way. -/
def gpioPinOn (writeRaises : Bool) : Except String Unit :=
  match (if writeRaises then (.error "sysfs write failed" : Except String Unit) else .ok ()) with
  | .ok _ => .ok ()
  | .error _ => .ok ()

/- uint8 arithmetic facts for the wrapped conversion; the bounded ones
are checked over the full channel range [0, 255]. -/

theorem u8_shiftLeft8 (x : Nat) : u8 (x <<< 8) = 0 := by
  unfold u8
  rw [Nat.shiftLeft_eq]
  exact Nat.mul_mod_left x 256

theorem wrap_g_fact : ∀ g < 256, u8 ((g &&& 0xFC) <<< 3) = (g &&& 0x1C) <<< 3 := by decide

theorem wrap_b_fact : ∀ b < 256, u8 (b >>> 3) = b >>> 3 := by decide

theorem lo_g_lt : ∀ g < 256, (g &&& 0x1C) <<< 3 < 256 := by decide

theorem lo_b_lt : ∀ b < 256, b >>> 3 < 256 := by decide

theorem u8_and_mask_id : ∀ v < 256, u8 (v &&& 0xFF) = v := by decide

theorem rgb565_lt (r g b : Nat) : rgb565 r g b < 256 := by
  unfold rgb565 u8
  exact Nat.mod_lt _ (by omega)

theorem rgb565_formula (r g b : Nat) (hg : g < 256) (hb : b < 256) :
    rgb565 r g b = ((g &&& 0x1C) <<< 3) ||| (b >>> 3) := by
  unfold rgb565
  rw [u8_shiftLeft8, wrap_g_fact g hg, wrap_b_fact b hb, Nat.zero_or]
  unfold u8
  exact Nat.mod_eq_of_lt
    (Nat.or_lt_two_pow (show (g &&& 0x1C) <<< 3 < 2 ^ 8 from lo_g_lt g hg)
      (show b >>> 3 < 2 ^ 8 from lo_b_lt b hb))

theorem hiByte_zero (r g b : Nat) : hiByte r g b = 0 := by
  unfold hiByte
  rw [Nat.shiftRight_eq_div_pow,
    Nat.div_eq_of_lt (show rgb565 r g b < 2 ^ 8 from rgb565_lt r g b)]
  rfl

theorem loByte_formula (r g b : Nat) (hg : g < 256) (hb : b < 256) :
    loByte r g b = ((g &&& 0x1C) <<< 3) ||| (b >>> 3) := by
  unfold loByte
  rw [rgb565_formula r g b hg hb]
  exact u8_and_mask_id _
    (Nat.or_lt_two_pow (show (g &&& 0x1C) <<< 3 < 2 ^ 8 from lo_g_lt g hg)
      (show b >>> 3 < 2 ^ 8 from lo_b_lt b hb))

/-! ### List helpers -/

theorem chunksOf_flatten_le {α : Type} (n : Nat) (hn : 0 < n) :
    ∀ (k : Nat) (l : List α), l.length ≤ k → (chunksOf n l).flatten = l := by
  intro k
  induction k with
  | zero =>
    intro l hl
    have h0 : l = [] := List.eq_nil_of_length_eq_zero (Nat.le_zero.mp hl)
    rw [chunksOf]
    simp [h0]
  | succ k ih =>
    intro l hl
    rw [chunksOf]
    split
    · rename_i h
      rcases h with h | h
      · simp [List.eq_nil_of_length_eq_zero h]
      · omega
    · rename_i h
      push_neg at h
      rw [List.flatten_cons, ih (l.drop n) (by simp [List.length_drop]; omega)]
      exact List.take_append_drop n l

theorem chunksOf_flatten {α : Type} (n : Nat) (hn : 0 < n) (l : List α) :
    (chunksOf n l).flatten = l :=
  chunksOf_flatten_le n hn l.length l Nat.le.refl

theorem flatMap_const_eq {α β : Type} (xs : List α) (l : List β) :
    (xs.flatMap fun _ => l) = (List.replicate xs.length l).flatten := by
  induction xs with
  | nil => rfl
  | cons x xs ih => simp [List.replicate_succ, ih]

theorem flatten_replicate_mul {β : Type} (m n : Nat) (l : List β) :
    (List.replicate m ((List.replicate n l).flatten)).flatten
      = (List.replicate (m * n) l).flatten := by
  induction m with
  | zero => simp
  | succ m ih =>
    rw [List.replicate_succ, List.flatten_cons, ih, Nat.succ_mul, Nat.add_comm,
      List.replicate_add, List.flatten_append]

theorem length_flatten_replicate {β : Type} (n : Nat) (l : List β) :
    ((List.replicate n l).flatten).length = n * l.length := by
  induction n with
  | zero => simp
  | succ n ih => rw [List.replicate_succ, List.flatten_cons, List.length_append, ih,
      Nat.succ_mul, Nat.add_comm]

/-! ### Byte-tagging lemmas -/

theorem tagGo_writeCommand (dc : Nat) (c : Int) (t : List Ev) :
    tagGo dc (writeCommand c ++ t) = (false, c) :: tagGo 0 t := rfl

theorem tagGo_writeData (dc : Nat) (d : Int) (t : List Ev) :
    tagGo dc (writeData d ++ t) = (true, d) :: tagGo 1 t := rfl

theorem tagGo_writeDataBytes (dc : Nat) (bs : List Int) (t : List Ev) :
    tagGo dc (writeDataBytes bs ++ t) = bs.map (fun b => (true, b)) ++ tagGo 1 t := rfl

theorem tagGo_chunkBlocks (cs : List (List Int)) :
    ∀ dc : Nat, tagGo dc (cs.flatMap writeDataBytes) = cs.flatten.map (fun b => (true, b)) := by
  induction cs with
  | nil => intro dc; rfl
  | cons c cs ih =>
    intro dc
    rw [List.flatMap_cons, tagGo_writeDataBytes, ih 1, List.flatten_cons, List.map_append]

/-- Tag stream of `set_window` followed by anything. -/
def swTags (x0 y0 x1 y1 : Int) : List (Bool × Int) :=
  [(false, 0x2A), (true, 0x00), (true, x0), (true, 0x00), (true, x1 - 1),
   (false, 0x2B), (true, 0x00), (true, y0), (true, 0x00), (true, y1 - 1),
   (false, 0x2C)]

theorem tagGo_setWindow (dc : Nat) (x0 y0 x1 y1 : Int) (t : List Ev) :
    tagGo dc (setWindow x0 y0 x1 y1 ++ t) = swTags x0 y0 x1 y1 ++ tagGo 0 t := rfl

theorem taggedBytes_showImage (img : Img) :
    taggedBytes (showImage img) = swTags 0 0 160 80 ++ (colorData img).map (fun b => (true, b)) := by
  unfold taggedBytes showImage
  rw [tagGo_setWindow, tagGo_chunkBlocks, chunksOf_flatten 1024 (by omega)]

theorem taggedBytes_clear (c : Nat) :
    taggedBytes (clear c) = swTags 0 0 160 80 ++ (clearData c).map (fun b => (true, b)) := by
  unfold taggedBytes clear
  rw [tagGo_setWindow, tagGo_chunkBlocks, chunksOf_flatten 1024 (by omega)]

theorem filterMap_cmd_of_data (l : List Int) :
    (l.map (fun b => (true, b))).filterMap
      (fun p : Bool × Int => if p.1 then none else some p.2) = [] := by
  induction l with
  | nil => rfl
  | cons x l ih => simp [ih]

theorem filterMap_dat_of_data (l : List Int) :
    (l.map (fun b => (true, b))).filterMap
      (fun p : Bool × Int => if p.1 then some p.2 else none) = l := by
  induction l with
  | nil => rfl
  | cons x l ih => simpa using ih

/-! ### Framing lemmas -/

theorem framedOk_setWindow (dc : Option Bool) (x0 y0 x1 y1 : Int) (t : List Ev)
    (h : notSpiHead t = true) :
    framedOk dc (setWindow x0 y0 x1 y1 ++ t) = framedOk (some false) t := by
  cases t with
  | nil => rfl
  | cons e r =>
    cases e with
    | spi bs => simp [notSpiHead] at h
    | gpio p v => rfl
    | delay m => rfl
    | setup => rfl

theorem notSpiHead_chunkBlocks (cs : List (List Int)) :
    notSpiHead (cs.flatMap writeDataBytes) = true := by
  cases cs <;> rfl

theorem framedOk_chunkBlocks (cs : List (List Int)) :
    ∀ dc : Option Bool, framedOk dc (cs.flatMap writeDataBytes) = true := by
  induction cs with
  | nil => intro dc; rfl
  | cons c cs ih =>
    intro dc
    cases cs with
    | nil => rfl
    | cons c2 cs2 =>
      have step : framedOk dc ((c :: c2 :: cs2).flatMap writeDataBytes)
          = framedOk (some true) ((c2 :: cs2).flatMap writeDataBytes) := rfl
      rw [step, ih (some true)]

theorem framedOk_clear (dc : Option Bool) (c : Nat) : framedOk dc (clear c) = true := by
  unfold clear
  rw [framedOk_setWindow dc 0 0 160 80 _ (notSpiHead_chunkBlocks _), framedOk_chunkBlocks]

theorem framedOk_showImage (dc : Option Bool) (img : Img) :
    framedOk dc (showImage img) = true := by
  unfold showImage
  rw [framedOk_setWindow dc 0 0 160 80 _ (notSpiHead_chunkBlocks _), framedOk_chunkBlocks]

theorem framedOk_initPrefix (t : List Ev) (h : notSpiHead t = true) :
    framedOk none (initRegisterCmds ++ writeCommand 0x29 ++ [.delay 100] ++ t)
      = framedOk (some false) t := by
  cases t with
  | nil => rfl
  | cons e r =>
    cases e with
    | spi bs => simp [notSpiHead] at h
    | gpio p v => rfl
    | delay m => rfl
    | setup => rfl

theorem framedOk_initTrace : framedOk none initTrace = true := by
  unfold initTrace
  rw [framedOk_initPrefix (clear 0) rfl, framedOk_clear]

/-! ### Tag stream of the initialization script -/

/-- Command/data tags of the register script plus display-on, in source
order (`init_lcd`, lines 72-170). -/
def initPrefixTags : List (Bool × Int) :=
  [(false, 0x11),
   (false, 0xB1), (true, 0x01), (true, 0x2C), (true, 0x2D),
   (false, 0xB2), (true, 0x01), (true, 0x2C), (true, 0x2D),
   (false, 0xB3), (true, 0x01), (true, 0x2C), (true, 0x2D),
     (true, 0x01), (true, 0x2C), (true, 0x2D),
   (false, 0xB4), (true, 0x07),
   (false, 0xC0), (true, 0xA2), (true, 0x02), (true, 0x84),
   (false, 0xC1), (true, 0xC5),
   (false, 0xC2), (true, 0x0A), (true, 0x00),
   (false, 0xC3), (true, 0x8A), (true, 0x2A),
   (false, 0xC4), (true, 0x8A), (true, 0xEE),
   (false, 0xC5), (true, 0x0E),
   (false, 0x36), (true, 0xC8),
   (false, 0x3A), (true, 0x05),
   (false, 0xE0), (true, 0x0F), (true, 0x1A), (true, 0x0F), (true, 0x18),
     (true, 0x2F), (true, 0x28), (true, 0x20), (true, 0x22),
     (true, 0x1F), (true, 0x1B), (true, 0x23), (true, 0x37),
     (true, 0x00), (true, 0x07), (true, 0x02), (true, 0x10),
   (false, 0xE1), (true, 0x0F), (true, 0x1B), (true, 0x0F), (true, 0x17),
     (true, 0x33), (true, 0x2C), (true, 0x29), (true, 0x2E),
     (true, 0x30), (true, 0x30), (true, 0x39), (true, 0x3F),
     (true, 0x00), (true, 0x07), (true, 0x03), (true, 0x10),
   (false, 0x29)]

theorem tagGo_initPrefix (t : List Ev) :
    tagGo 0 (initRegisterCmds ++ writeCommand 0x29 ++ [.delay 100] ++ t)
      = initPrefixTags ++ tagGo 0 t := rfl

theorem taggedBytes_initTrace :
    taggedBytes initTrace
      = initPrefixTags ++ swTags 0 0 160 80 ++ (clearData 0).map (fun b => (true, b)) := by
  unfold taggedBytes initTrace
  rw [tagGo_initPrefix (clear 0)]
  rw [show tagGo 0 (clear 0) = taggedBytes (clear 0) from rfl, taggedBytes_clear,
    List.append_assoc]

/-- Opcodes issued by `init_lcd` in source order, including the window
commands of the final `clear`. -/
def initOpcodes : List Int :=
  [0x11, 0xB1, 0xB2, 0xB3, 0xB4, 0xC0, 0xC1, 0xC2, 0xC3, 0xC4, 0xC5,
   0x36, 0x3A, 0xE0, 0xE1, 0x29, 0x2A, 0x2B, 0x2C]

theorem commandBytes_initTrace : commandBytes initTrace = initOpcodes := by
  unfold commandBytes
  rw [taggedBytes_initTrace, List.filterMap_append, List.filterMap_append,
    filterMap_cmd_of_data]
  rfl

theorem commandBytes_showImage (img : Img) :
    commandBytes (showImage img) = [0x2A, 0x2B, 0x2C] := by
  unfold commandBytes
  rw [taggedBytes_showImage, List.filterMap_append, filterMap_cmd_of_data]
  rfl

theorem commandBytes_clear (c : Nat) : commandBytes (clear c) = [0x2A, 0x2B, 0x2C] := by
  unfold commandBytes
  rw [taggedBytes_clear, List.filterMap_append, filterMap_cmd_of_data]
  rfl

theorem dataBytes_showImage (img : Img) :
    dataBytes (showImage img) = [0, 0, 0, 159, 0, 0, 0, 79] ++ colorData img := by
  unfold dataBytes
  rw [taggedBytes_showImage, List.filterMap_append, filterMap_dat_of_data]
  rfl

theorem dataBytes_clear (c : Nat) :
    dataBytes (clear c) = [0, 0, 0, 159, 0, 0, 0, 79] ++ clearData c := by
  unfold dataBytes
  rw [taggedBytes_clear, List.filterMap_append, filterMap_dat_of_data]
  rfl

/-! ### Constant images -/

theorem colorData_const (p : Nat × Nat × Nat) :
    colorData (fun _ _ => p) = (List.replicate (160 * 80) (pixelBytes p)).flatten := by
  unfold colorData
  calc (List.range 80).flatMap (fun _ => (List.range 160).flatMap fun _ => pixelBytes p)
      = (List.range 80).flatMap (fun _ => (List.replicate 160 (pixelBytes p)).flatten) := by
        rw [flatMap_const_eq (List.range 160) (pixelBytes p), List.length_range]
    _ = (List.replicate 80 ((List.replicate 160 (pixelBytes p)).flatten)).flatten := by
        rw [flatMap_const_eq, List.length_range]
    _ = (List.replicate (80 * 160) (pixelBytes p)).flatten := flatten_replicate_mul 80 160 _
    _ = (List.replicate (160 * 80) (pixelBytes p)).flatten := by norm_num

theorem colorData_red :
    colorData (fun _ _ => (255, 0, 0))
      = (List.replicate 12800 ([0x00, 0x00] : List Int)).flatten := by
  rw [colorData_const]
  rfl

/-! ### Claims -/

/-- C1 (code bug): the conversion `show_image` actually performs runs on
numpy `uint8` scalars, so `(r & 0xF8) << 8` and `(color565 >> 8)` wrap
at 8 bits and the transmitted high byte is `0x00` for every pixel, not
`(r &&& 0xF8) ||| (g >>> 5)`; the claim's vectors come out
`(255, 255, 255)` to `(0x00, 0xFF)`, `(0, 0, 0)` to `(0x00, 0x00)` and
`(255, 0, 0)` to `(0x00, 0x00)` instead of the claimed pairs. -/
theorem c1_wrapped_conversion :
    (∀ r g b : Nat, hiByte r g b = 0x00)
    ∧ pixelBytes (255, 0, 0) = [0x00, 0x00]
    ∧ pixelBytes (255, 255, 255) = [0x00, 0xFF]
    ∧ pixelBytes (0, 0, 0) = [0x00, 0x00] :=
  ⟨hiByte_zero, by decide, by decide, by decide⟩

/-- C2 counterexample: the packing used by `show_image` matches neither
byte of the spec's corrected standard formula.  At `(255, 0, 0)` the
code's (uint8-wrapped) high byte is `0x00` while
`(r &&& 0xF8) ||| (g >>> 5)` gives `0xF8`, and at `(0, 4, 0)` the
code's low byte is `0x20` while `((g &&& 0x07) <<< 5) ||| (b >>> 3)`
gives `0x80`. -/
theorem c2_counterexample :
    hiByte 255 0 0 = 0x00 ∧ (255 &&& 0xF8) ||| (0 >>> 5) = 0xF8
      ∧ hiByte 255 0 0 ≠ (255 &&& 0xF8) ||| (0 >>> 5)
      ∧ loByte 0 4 0 = 0x20 ∧ specCorrectedLowByte 4 0 = 0x80
      ∧ loByte 0 4 0 ≠ specCorrectedLowByte 4 0 := by decide

/-- C2 amended: because the conversion is evaluated on numpy `uint8`
scalars, the packing `show_image` actually transmits has high byte
always `0x00` (the wrapped `(r & 0xF8) << 8` and `color565 >> 8` lose
the red and upper-green bits) and low byte
`((g &&& 0x1C) <<< 3) ||| (b >>> 3)`; it matches neither byte of the
spec's corrected formula `(r & 0xF8)|(g >> 5)` /
`((g & 0x07) << 5)|(b >> 3)` in general. -/
theorem c2_amended_packing (r g b : Nat) (hr : r < 256) (hg : g < 256) (hb : b < 256) :
    hiByte r g b = 0x00
      ∧ loByte r g b = ((g &&& 0x1C) <<< 3) ||| (b >>> 3) :=
  ⟨hiByte_zero r g b, loByte_formula r g b hg hb⟩

theorem c2_amended_packing_witness :
    hiByte 9 200 77 = 0x00
      ∧ loByte 9 200 77 = ((200 &&& 0x1C) <<< 3) ||| (77 >>> 3) :=
  c2_amended_packing 9 200 77 (by decide) (by decide) (by decide)

/-- C3: for every rectangle, `set_window` emits the column command
`0x2A` with argument bytes `0x00, x0, 0x00, x1 - 1`, then the row
command `0x2B` with argument bytes `0x00, y0, 0x00, y1 - 1`, then the
write-to-frame-memory command `0x2C` with no argument bytes (commands
tagged `false` = D/C low, data tagged `true` = D/C high). -/
theorem c3_set_window_stream (x0 y0 x1 y1 : Int) :
    taggedBytes (setWindow x0 y0 x1 y1) =
      [(false, 0x2A), (true, 0x00), (true, x0), (true, 0x00), (true, x1 - 1),
       (false, 0x2B), (true, 0x00), (true, y0), (true, 0x00), (true, y1 - 1),
       (false, 0x2C)] := rfl

/-- C4 counterexample: `set_window` contains no precondition check.
Called on the empty rectangle `(0, 0, 0, 0)` it does not fail: it emits
the full 44-event command stream, with `x_end - 1 = -1` as an argument
byte. -/
theorem c4_counterexample :
    taggedBytes (setWindow 0 0 0 0) =
      [(false, 0x2A), (true, 0), (true, 0), (true, 0), (true, -1),
       (false, 0x2B), (true, 0), (true, 0), (true, 0), (true, -1),
       (false, 0x2C)]
    ∧ (setWindow 0 0 0 0).length = 44 := ⟨rfl, rfl⟩

/-- C4 amended: `set_window` performs no validation at all; for every
rectangle, empty or out of panel bounds included, it unconditionally
emits the same 44-event command stream with opcodes
`0x2A, 0x2B, 0x2C`. -/
theorem c4_amended_no_validation (x0 y0 x1 y1 : Int) :
    (setWindow x0 y0 x1 y1).length = 44
      ∧ commandBytes (setWindow x0 y0 x1 y1) = [0x2A, 0x2B, 0x2C] := ⟨rfl, rfl⟩

/-- C5 (code bug): on a uniform solid red 160 by 80 image, `show_image`
performs exactly one `set_window(0, 0, 160, 80)` followed by 12,800
byte pairs and no further command byte, but because the per-pixel
conversion wraps at `uint8` every pair is `(0x00, 0x00)`, not the
claimed `(0xF8, 0x00)`; the first pixel byte after the window arguments
is `0x00`. -/
theorem c5_wrapped_red_stream :
    showImage (fun _ _ => (255, 0, 0)) =
      setWindow 0 0 160 80 ++
        (chunksOf 1024 ((List.replicate 12800 ([0x00, 0x00] : List Int)).flatten)).flatMap
          writeDataBytes
    ∧ taggedBytes (showImage (fun _ _ => (255, 0, 0)))
        = swTags 0 0 160 80 ++
            ((List.replicate 12800 ([0x00, 0x00] : List Int)).flatten).map (fun b => (true, b))
    ∧ ((List.replicate 12800 ([0x00, 0x00] : List Int)).flatten).length = 25600
    ∧ (dataBytes (showImage (fun _ _ => (255, 0, 0)))).get? 8 = some 0x00 := by
  refine ⟨?_, ?_, ?_, ?_⟩
  · unfold showImage
    rw [colorData_red]
  · rw [taggedBytes_showImage, colorData_red]
  · rw [length_flatten_replicate]
    rfl
  · rw [dataBytes_showImage, colorData_red]
    rfl

/-- C6 (code bug): `clear c` is not equivalent to `show_image` on a
uniform image encoding to `c`: `clear` computes its two bytes with
plain Python integers while `show_image` wraps at `uint8`, so for red
(`c = 0xF800`, pixel `(255, 0, 0)`) `clear` transmits pixel pairs
`(0xF8, 0x00)` but `show_image` transmits `(0x00, 0x00)` and the two
event streams differ. -/
theorem c6_clear_red_mismatch :
    (dataBytes (clear 0xF800)).get? 8 = some 0xF8
    ∧ (dataBytes (showImage (fun _ _ => (255, 0, 0)))).get? 8 = some 0x00
    ∧ clear 0xF800 ≠ showImage (fun _ _ => (255, 0, 0)) := by
  have hdc : (dataBytes (clear 0xF800)).get? 8 = some 0xF8 := by
    rw [dataBytes_clear]
    rfl
  have hds : (dataBytes (showImage (fun _ _ => (255, 0, 0)))).get? 8 = some 0x00 := by
    rw [dataBytes_showImage, colorData_red]
    rfl
  refine ⟨hdc, hds, fun h => ?_⟩
  rw [h] at hdc
  rw [hdc] at hds
  exact absurd hds (by decide)

/-- C7 counterexample: `init_lcd` does not follow the claimed reference
order `sleep-out, frame-rate, power, gamma, memory-access, pixel-format,
display-on`: the memory-access command `0x36` and pixel-format command
`0x3A` are issued before the gamma commands `0xE0`/`0xE1`, not after. -/
theorem c7_counterexample :
    commandBytes initTrace = initOpcodes
      ∧ (commandBytes initTrace).indexOf 0x36 < (commandBytes initTrace).indexOf 0xE0
      ∧ (commandBytes initTrace).indexOf 0x3A < (commandBytes initTrace).indexOf 0xE0 := by
  refine ⟨commandBytes_initTrace, ?_, ?_⟩ <;>
    rw [commandBytes_initTrace] <;> decide

/-- C7 amended: `init_lcd` issues its configuration commands in the
fixed branch-free order sleep-out (`0x11`), frame-rate (`0xB1..0xB3`),
inversion (`0xB4`), power (`0xC0..0xC4`), VCOM (`0xC5`), memory-access
(`0x36`), pixel-format (`0x3A`), gamma (`0xE0`, `0xE1`), display-on
(`0x29`), and ends by waiting a fixed 100 ms settle delay after
display-on and then clearing the full frame to the default color
`0x0000`. -/
theorem c7_amended_init_order :
    commandBytes initTrace = initOpcodes
      ∧ initTrace = initRegisterCmds ++ writeCommand 0x29 ++ [.delay 100] ++ clear 0 :=
  ⟨commandBytes_initTrace, rfl⟩

/-- C8 counterexample: the driver layer does swallow errors.
`show_image(None)` prints an error and returns normally having
performed none of its transport writes, and the sysfs `GPIOPin.on`
handler catches any write failure with a bare `except: pass` and
returns normally. -/
theorem c8_counterexample :
    showImageChecked none = Except.ok [] ∧ gpioPinOn true = Except.ok () := ⟨rfl, rfl⟩

/-- C8 amended: `show_image` returns normally with no transport writes
when handed `None` (error logged only), and the sysfs `GPIOPin.on`
swallows write failures; for every non-`None` native-size image,
`show_image` returns normally after emitting its full specified stream
(window header plus chunked pixel data). -/
theorem c8_amended_error_paths :
    showImageChecked none = Except.ok []
      ∧ (∀ img : Img, showImageChecked (some img)
          = Except.ok (setWindow 0 0 160 80 ++
              (chunksOf 1024 (colorData img)).flatMap writeDataBytes))
      ∧ gpioPinOn true = Except.ok () ∧ gpioPinOn false = Except.ok () :=
  ⟨rfl, fun _ => rfl, rfl, rfl⟩

/-- C9 counterexample: `cleanup` neither sets the reset line high nor
the data/command line low (it only writes the backlight pin), and a
second consecutive `cleanup` call is not free of transport side
effects: the backlight write re-triggers `setup()`, which re-opens the
SPI device. -/
theorem c9_counterexample :
    ((lcdCleanup ⟨true, true⟩).2.all fun e => !(e == .output rstPin 1)) = true
    ∧ ((lcdCleanup ⟨true, true⟩).2.all fun e => !(e == .output dcPin 0)) = true
    ∧ ((lcdCleanup (lcdCleanup ⟨true, true⟩).1).2.contains .spiOpened) = true := by decide

/-- C9 amended: from an initialized state, `cleanup` drives the
backlight pin low, closes the SPI device and runs `GPIO.cleanup`,
leaving the layer uninitialized; it never touches the reset or
data/command lines.  A second call raises no error but re-runs the full
GPIO/SPI setup (re-opening the transport) before closing it again. -/
theorem c9_amended_cleanup :
    lcdCleanup ⟨true, true⟩ = (⟨false, false⟩, [.output blPin 0, .spiClosed, .gpioCleaned])
    ∧ lcdCleanup ⟨false, false⟩ =
        (⟨false, false⟩,
         [.setmode, .setupPin rstPin 1, .setupPin dcPin 0, .setupPin csPin 1,
          .setupPin blPin 1, .spiOpened, .output blPin 0, .spiClosed, .gpioCleaned]) :=
  ⟨rfl, rfl⟩

/-- C10: command/data framing invariant.  In every operation's stream
(`init_lcd`, `set_window`, `clear`, `show_image`) each SPI transfer is
immediately preceded by a CS-low write and immediately followed by a
CS-high write with the D/C line driven beforehand, the bytes written
with D/C low are exactly the controller command opcodes, and every
argument/pixel byte is written with D/C high. -/
theorem c10_framing_invariant :
    framedOk none initTrace = true
    ∧ (∀ x0 y0 x1 y1 : Int, framedOk none (setWindow x0 y0 x1 y1) = true)
    ∧ (∀ c : Nat, framedOk none (clear c) = true)
    ∧ (∀ img : Img, framedOk none (showImage img) = true)
    ∧ commandBytes initTrace = initOpcodes
    ∧ (∀ x0 y0 x1 y1 : Int, commandBytes (setWindow x0 y0 x1 y1) = [0x2A, 0x2B, 0x2C])
    ∧ (∀ c : Nat, commandBytes (clear c) = [0x2A, 0x2B, 0x2C])
    ∧ (∀ img : Img, commandBytes (showImage img) = [0x2A, 0x2B, 0x2C])
    ∧ (∀ img : Img, dataBytes (showImage img) = [0, 0, 0, 159, 0, 0, 0, 79] ++ colorData img) :=
  ⟨framedOk_initTrace,
   fun _ _ _ _ => rfl,
   fun c => framedOk_clear none c,
   fun img => framedOk_showImage none img,
   commandBytes_initTrace,
   fun _ _ _ _ => rfl,
   commandBytes_clear,
   commandBytes_showImage,
   dataBytes_showImage⟩

end LCDDriver
